import Mathlib

/-!
Verification of the disaster-risk simulation service (`main.py`).

The Python source is shallowly embedded: Python floats are modelled as
rationals (`ℚ`, exact arithmetic; the scoring pipeline only adds,
multiplies, divides, compares and rounds), Python dictionaries as
association lists, JSON values as an inductive type, and raised/caught
Python exceptions as `Except`.  The database is modelled by explicit
effect traces (`StoreOp`) plus two booleans saying whether a connection
can be opened and whether a write is accepted.
-/

/-- A JSON value as it appears in a parsed request body.  Only the two
shapes that reach the scoring code matter: numbers (Python `int`/`float`,
both exact here) and strings. -/
inductive JVal where
  | jnum (q : ℚ)
  | jstr (s : String)
deriving DecidableEq

/-- A Python exception that can escape the scoring code and be caught at
the request boundary. -/
inductive PyErr where
  | attributeError (msg : String)
  | valueError (msg : String)
deriving DecidableEq

/-- Message text of an exception, as interpolated into the HTTP 500 body. -/
def PyErr.msg : PyErr → String
  | .attributeError m => m
  | .valueError m => m

/-- Python `str.lower()` restricted to strings: per-character lowercasing
(`String.toLower` has the same behaviour but does not reduce in the
kernel, so the map is spelled out). -/
def strLower (s : String) : String :=
  String.mk (s.data.map Char.toLower)

/-- Python `dict.get(key, default)` on a string-keyed dictionary,
modelled on an association list. -/
def pyGet {α : Type} (m : List (String × α)) (key : String) (dflt : α) : α :=
  match m with
  | [] => dflt
  | (k, v) :: rest => if key = k then v else pyGet rest key dflt

/-- Python `key in dict` on a string-keyed dictionary: indexing
`dict[key]` raises `KeyError` exactly when this is `false`. -/
def pyHasKey {α : Type} (m : List (String × α)) (key : String) : Bool :=
  match m with
  | [] => false
  | (k, _) :: rest => if key = k then true else pyHasKey rest key

/-- Digit-string evaluation helper for `parseFloat?`. -/
def digitsValAux : List Char → Nat → Option Nat
  | [], acc => some acc
  | c :: cs, acc =>
      if c.isDigit then digitsValAux cs (acc * 10 + (c.toNat - 48)) else none

/-- Value of a non-empty all-digit character list. -/
def digitsVal (cs : List Char) : Option Nat :=
  if cs.isEmpty then none else digitsValAux cs 0

/-- Unsigned decimal literal: digits with an optional single fractional
part. -/
def parseUnsigned (cs : List Char) : Option ℚ :=
  let ip := cs.takeWhile (fun c => c ≠ '.')
  match cs.dropWhile (fun c => c ≠ '.') with
  | [] => (digitsVal ip).map (fun n => (n : ℚ))
  | _ :: fp =>
      match digitsVal ip, digitsVal fp with
      | some n, some f => some ((n : ℚ) + (f : ℚ) / (10 : ℚ) ^ fp.length)
      | _, _ => none

/-- Python `float()` applied to a string, for plain decimal literals
(optionally signed).  Exponent forms, `inf`/`nan` and surrounding
whitespace, which CPython also accepts, are outside the scope of the
claims and are modelled as failures. -/
def parseFloat? (s : String) : Option ℚ :=
  match s.data with
  | '-' :: rest => (parseUnsigned rest).map (fun q => -q)
  | cs => parseUnsigned cs

/-- Python `float(v)` on a JSON value: numbers pass through, strings are
parsed, anything unparsable raises `ValueError`. -/
def pyFloat (v : JVal) : Except PyErr ℚ :=
  match v with
  | .jnum q => .ok q
  | .jstr s =>
      match parseFloat? s with
      | some q => .ok q
      | none => .error (.valueError ("could not convert string to float: " ++ s))

/-- Python `v.lower()` on a JSON value: only strings have a `lower`
method, a number raises `AttributeError`. -/
def pyLower (v : JVal) : Except PyErr String :=
  match v with
  | .jstr s => .ok (strLower s)
  | .jnum _ => .error (.attributeError "float object has no attribute lower")

/-- Round-half-to-even on a rational, the semantics of Python `round`. -/
def roundHalfEven (x : ℚ) : ℤ :=
  let n := ⌊x⌋
  let f := x - (n : ℚ)
  if f < 1/2 then n
  else if 1/2 < f then n + 1
  else if n % 2 = 0 then n else n + 1

/-- Python `round(x, 2)`: round to two decimal places, half to even. -/
def pyRound2 (x : ℚ) : ℚ :=
  (roundHalfEven (x * 100) : ℚ) / 100

/-- `normalize_value` from `main.py`: linear rescaling of `value` over
`[min_val, max_val]`, with the degenerate domain mapped to `0.5`. -/
def normalize_value (value min_val max_val : ℚ) : ℚ :=
  if max_val = min_val then 0.5
  else (value - min_val) / (max_val - min_val)

/-- The category if-chain repeated verbatim inside all three scoring
functions of `main.py`: thresholds 40 and 70 on the (unrounded, clamped)
percentage. -/
def risk_category (risk_percentage : ℚ) : String :=
  if risk_percentage < 40 then "Rendah"
  else if risk_percentage < 70 then "Sedang"
  else "Tinggi"

/-- Rendering of a number into explanation text.  Python prints floats in
decimal notation; the exact digit string is irrelevant to every claim, so
a rational is rendered as `num` or `num/den`. -/
def fmtNum (q : ℚ) : String :=
  if q.den = 1 then toString q.num else toString q.num ++ "/" ++ toString q.den

/-- Rendering of a raw JSON value into explanation text (Python
f-string interpolation of the raw request value). -/
def jvalText : JVal → String
  | .jnum q => fmtNum q
  | .jstr s => s

/-- The result dictionary produced by each scoring function:
`skor_risiko`, `kategori_risiko`, `penjelasan`. -/
structure RiskResult where
  skor_risiko : ℚ
  kategori_risiko : String
  penjelasan : String
deriving DecidableEq

/-- The `drainage_scores` dictionary of `calculate_flood_risk`. -/
def drainage_scores : List (String × ℚ) :=
  [("baik", 0.2), ("sedang", 0.5), ("buruk", 0.8)]

/-- The `material_scores` dictionary of `calculate_fire_risk`. -/
def material_scores : List (String × ℚ) :=
  [("sulit", 0.2), ("sedang", 0.5), ("mudah", 0.8)]

/-- `calculate_earthquake_risk(magnitude, depth, distance)` from
`main.py`: weighted sum of the normalized magnitude and the inverted
normalized depth and distance, scaled to a percentage, clamped above at
100, categorised at 40/70, rounded to two decimals. -/
def calculate_earthquake_risk (magnitude depth distance : ℚ) : RiskResult :=
  let norm_magnitude := normalize_value magnitude 1 10
  let norm_depth := normalize_value depth 0 700
  let norm_distance := normalize_value distance 0 1000
  let w_magnitude := (0.5 : ℚ)
  let w_depth := (0.3 : ℚ)
  let w_distance := (0.2 : ℚ)
  let risk_score :=
    w_magnitude * norm_magnitude +
    w_depth * (1 - norm_depth) +
    w_distance * (1 - norm_distance)
  let risk_percentage := min (risk_score * 100) 100
  let category := risk_category risk_percentage
  let explanation_parts : List String :=
    [ if norm_magnitude > 0.7 then "Magnitudo " ++ fmtNum magnitude ++ " SR tergolong tinggi"
      else if norm_magnitude > 0.4 then "Magnitudo " ++ fmtNum magnitude ++ " SR sedang"
      else "Magnitudo " ++ fmtNum magnitude ++ " SR rendah",
      if norm_depth < 0.3 then "kedalaman gempa dangkal"
      else if norm_depth < 0.7 then "kedalaman gempa sedang"
      else "kedalaman gempa dalam",
      if norm_distance < 0.3 then "jarak dari pusat gempa dekat"
      else if norm_distance < 0.7 then "jarak dari pusat gempa sedang"
      else "jarak dari pusat gempa jauh" ]
  let explanation :=
    "Berdasarkan parameter: " ++ String.intercalate ", " explanation_parts ++ "."
  { skor_risiko := pyRound2 risk_percentage
    kategori_risiko := category
    penjelasan := explanation }

/-- `calculate_flood_risk(rainfall, altitude, drainage_condition)` from
`main.py`.  The third argument is the raw request value: the function
calls `.lower()` on it, so a non-string raises (`Except.error`). -/
def calculate_flood_risk (rainfall altitude : ℚ) (drainage_condition : JVal) :
    Except PyErr RiskResult :=
  let norm_rainfall := normalize_value rainfall 0 500
  let norm_altitude := normalize_value altitude 0 3000
  match pyLower drainage_condition with
  | .error e => .error e
  | .ok lowered =>
    let drainage_score := pyGet drainage_scores lowered 0.5
    let w_rainfall := (0.4 : ℚ)
    let w_altitude := (0.3 : ℚ)
    let w_drainage := (0.3 : ℚ)
    let risk_score :=
      w_rainfall * norm_rainfall +
      w_altitude * (1 - norm_altitude) +
      w_drainage * drainage_score
    let risk_percentage := min (risk_score * 100) 100
    let category := risk_category risk_percentage
    let explanation_parts : List String :=
      [ if norm_rainfall > 0.7 then "curah hujan " ++ fmtNum rainfall ++ " mm/jam sangat tinggi"
        else if norm_rainfall > 0.4 then "curah hujan " ++ fmtNum rainfall ++ " mm/jam tinggi"
        else "curah hujan " ++ fmtNum rainfall ++ " mm/jam normal",
        if norm_altitude > 0.7 then "ketinggian wilayah cukup tinggi"
        else if norm_altitude > 0.4 then "ketinggian wilayah sedang"
        else "ketinggian wilayah rendah",
        "kondisi drainase " ++ jvalText drainage_condition ]
    let explanation :=
      "Berdasarkan parameter: " ++ String.intercalate ", " explanation_parts ++ "."
    .ok { skor_risiko := pyRound2 risk_percentage
          kategori_risiko := category
          penjelasan := explanation }

/-- `calculate_fire_risk(area, material_type, wind_speed)` from
`main.py`.  The material argument is the raw request value: the function
calls `.lower()` on it, so a non-string raises (`Except.error`). -/
def calculate_fire_risk (area : ℚ) (material_type : JVal) (wind_speed : ℚ) :
    Except PyErr RiskResult :=
  let norm_area := normalize_value area 0 10000
  let norm_wind := normalize_value wind_speed 0 100
  match pyLower material_type with
  | .error e => .error e
  | .ok lowered =>
    let material_score := pyGet material_scores lowered 0.5
    let w_area := (0.4 : ℚ)
    let w_material := (0.3 : ℚ)
    let w_wind := (0.3 : ℚ)
    let risk_score :=
      w_area * norm_area +
      w_material * material_score +
      w_wind * norm_wind
    let risk_percentage := min (risk_score * 100) 100
    let category := risk_category risk_percentage
    let explanation_parts : List String :=
      [ if norm_area > 0.7 then "luas area " ++ fmtNum area ++ " m² sangat luas"
        else if norm_area > 0.4 then "luas area " ++ fmtNum area ++ " m² cukup luas"
        else "luas area " ++ fmtNum area ++ " m² terbatas",
        "material " ++ jvalText material_type ++ " terbakar",
        if norm_wind > 0.7 then "kecepatan angin " ++ fmtNum wind_speed ++ " km/jam tinggi"
        else if norm_wind > 0.4 then "kecepatan angin " ++ fmtNum wind_speed ++ " km/jam sedang"
        else "kecepatan angin " ++ fmtNum wind_speed ++ " km/jam rendah" ]
    let explanation :=
      "Berdasarkan parameter: " ++ String.intercalate ", " explanation_parts ++ "."
    .ok { skor_risiko := pyRound2 risk_percentage
          kategori_risiko := category
          penjelasan := explanation }

/-- The unrounded, clamped percentage computed inside
`calculate_earthquake_risk` (the value the category is derived from). -/
def earthquake_percentage (magnitude depth distance : ℚ) : ℚ :=
  min ((0.5 * normalize_value magnitude 1 10 +
        0.3 * (1 - normalize_value depth 0 700) +
        0.2 * (1 - normalize_value distance 0 1000)) * 100) 100

/-- The unrounded, clamped percentage computed inside
`calculate_flood_risk`, as a function of the drainage score. -/
def flood_percentage (rainfall altitude drainage_score : ℚ) : ℚ :=
  min ((0.4 * normalize_value rainfall 0 500 +
        0.3 * (1 - normalize_value altitude 0 3000) +
        0.3 * drainage_score) * 100) 100

/-- The unrounded, clamped percentage computed inside
`calculate_fire_risk`, as a function of the material score. -/
def fire_percentage (area material_score wind_speed : ℚ) : ℚ :=
  min ((0.4 * normalize_value area 0 10000 +
        0.3 * material_score +
        0.3 * normalize_value wind_speed 0 100) * 100) 100

/-- An observable operation against the MySQL store: a connection
attempt, an `INSERT` into a table, or a `SELECT` from a table. -/
inductive StoreOp where
  | connect
  | insertRow (table : String)
  | query (table : String)
deriving DecidableEq

/-- Response of the calculate endpoint, as the JSON envelope plus HTTP
status class: `{success: true, data}`, or `{success: false, message}`
with a 400 or a 500. -/
inductive CalcResponse where
  | success (data : RiskResult)
  | clientError (message : String)
  | serverError (message : String)
deriving DecidableEq

/-- One row returned by the history endpoint (cursor with
`dictionary=True`). -/
def Row := List (String × JVal)

/-- Response of the history endpoint. -/
inductive HistResponse where
  | success (data : List Row)
  | clientError (message : String)
  | serverError (message : String)

/-- The parameter keys `save_simulation_result` reads from the raw
request body for each disaster type (its `values` tuple). -/
def requiredKeys (disaster_type : String) : List String :=
  if disaster_type = "gempa" then ["magnitude", "depth", "distance"]
  else if disaster_type = "banjir" then ["rainfall", "altitude", "drainageCondition"]
  else ["area", "materialType", "windSpeed"]

/-- The per-scenario history table written by `save_simulation_result`
and read by `get_history`. -/
def tableFor (disaster_type : String) : String :=
  if disaster_type = "gempa" then "simulasi_gempa"
  else if disaster_type = "banjir" then "simulasi_banjir"
  else "simulasi_kebakaran"

/-- `save_simulation_result(disaster_type, parameters, result)` from
`main.py`, with the environment made explicit: `connOk` says whether
`get_db_connection` succeeds, `writeOk` whether the `INSERT` is
accepted.  Returns the boolean result of the Python function together
with the store operations performed.  A failed connection returns
`False`; a missing parameter key raises `KeyError` while building the
`values` tuple, which the function's own `except` swallows into `False`;
a rejected write is likewise swallowed into `False`. -/
def save_simulation_result (connOk writeOk : Bool) (disaster_type : String)
    (parameters : List (String × JVal)) : Bool × List StoreOp :=
  if connOk = false then (false, [StoreOp.connect])
  else if (requiredKeys disaster_type).all (fun k => pyHasKey parameters k) then
    if writeOk then (true, [StoreOp.connect, StoreOp.insertRow (tableFor disaster_type)])
    else (false, [StoreOp.connect])
  else (false, [StoreOp.connect])

/-- The body of the `if/elif/elif` chain of `calculate_risk` in
`main.py`: extract the parameters of the given scenario from the JSON
body with their defaults, coerce them with `float()`, and run the
matching scoring function.  `none` means the routing key is not one of
the three known scenarios (the final `else`).  An `Except.error` is an
exception that the endpoint's `try/except` will turn into a 500. -/
def compute_result (disaster_type : String) (data : List (String × JVal)) :
    Option (Except PyErr RiskResult) :=
  if disaster_type = "gempa" then
    some (match pyFloat (pyGet data "magnitude" (JVal.jnum 5.0)) with
      | .error e => .error e
      | .ok magnitude =>
        match pyFloat (pyGet data "depth" (JVal.jnum 10.0)) with
        | .error e => .error e
        | .ok depth =>
          match pyFloat (pyGet data "distance" (JVal.jnum 50.0)) with
          | .error e => .error e
          | .ok distance => .ok (calculate_earthquake_risk magnitude depth distance))
  else if disaster_type = "banjir" then
    some (match pyFloat (pyGet data "rainfall" (JVal.jnum 50.0)) with
      | .error e => .error e
      | .ok rainfall =>
        match pyFloat (pyGet data "altitude" (JVal.jnum 50.0)) with
        | .error e => .error e
        | .ok altitude =>
          calculate_flood_risk rainfall altitude
            (pyGet data "drainageCondition" (JVal.jstr "sedang")))
  else if disaster_type = "kebakaran" then
    some (match pyFloat (pyGet data "area" (JVal.jnum 100.0)) with
      | .error e => .error e
      | .ok area =>
        match pyFloat (pyGet data "windSpeed" (JVal.jnum 10.0)) with
        | .error e => .error e
        | .ok wind_speed =>
          calculate_fire_risk area
            (pyGet data "materialType" (JVal.jstr "sedang")) wind_speed)
  else none

/-- The `POST /api/calculate/<disaster_type>` handler of `main.py`.
An unknown disaster type returns the 400 envelope before any scoring or
store access.  A successful computation is saved (best effort, outcome
ignored) and returned as `{success: true, data}`.  Any exception inside
the `try` block becomes the 500 envelope `Error: ...`. -/
def calculate_risk (disaster_type : String) (data : List (String × JVal))
    (connOk writeOk : Bool) : CalcResponse × List StoreOp :=
  match compute_result disaster_type data with
  | none => (CalcResponse.clientError "Jenis bencana tidak valid", [])
  | some (.error e) => (CalcResponse.serverError ("Error: " ++ e.msg), [])
  | some (.ok result) =>
      (CalcResponse.success result,
       (save_simulation_result connOk writeOk disaster_type data).snd)

/-- The `GET /api/history/<disaster_type>` handler of `main.py`, with
the store made explicit: `connOk` says whether `get_db_connection`
succeeds and `stores` maps a table name to its rows, newest first (the
`ORDER BY timestamp DESC` of the query).  Note the handler opens the
connection BEFORE validating the disaster type: a failed connection
yields the 500 envelope even for an unknown type, and a known type
returns the ten most recent rows. -/
def get_history (connOk : Bool) (stores : String → List Row)
    (disaster_type : String) : HistResponse × List StoreOp :=
  if connOk = false then
    (HistResponse.serverError "Database connection failed", [StoreOp.connect])
  else if disaster_type = "gempa" then
    (HistResponse.success ((stores "simulasi_gempa").take 10),
     [StoreOp.connect, StoreOp.query "simulasi_gempa"])
  else if disaster_type = "banjir" then
    (HistResponse.success ((stores "simulasi_banjir").take 10),
     [StoreOp.connect, StoreOp.query "simulasi_banjir"])
  else if disaster_type = "kebakaran" then
    (HistResponse.success ((stores "simulasi_kebakaran").take 10),
     [StoreOp.connect, StoreOp.query "simulasi_kebakaran"])
  else
    (HistResponse.clientError "Jenis bencana tidak valid", [StoreOp.connect])

/-- The returned score is the rounded percentage (definitional bridge). -/
theorem earthquake_skor_eq (m d dist : ℚ) :
    (calculate_earthquake_risk m d dist).skor_risiko
      = pyRound2 (earthquake_percentage m d dist) := rfl

/-- The returned category is derived from the unrounded percentage. -/
theorem earthquake_kategori_eq (m d dist : ℚ) :
    (calculate_earthquake_risk m d dist).kategori_risiko
      = risk_category (earthquake_percentage m d dist) := rfl

/-- Flood scoring on a string label succeeds, with this score. -/
theorem flood_jstr_skor (r a : ℚ) (s : String) :
    Except.map RiskResult.skor_risiko (calculate_flood_risk r a (JVal.jstr s))
      = Except.ok (pyRound2 (flood_percentage r a (pyGet drainage_scores (strLower s) 0.5))) := rfl

/-- Flood scoring on a string label succeeds, with this category. -/
theorem flood_jstr_kategori (r a : ℚ) (s : String) :
    Except.map RiskResult.kategori_risiko (calculate_flood_risk r a (JVal.jstr s))
      = Except.ok (risk_category (flood_percentage r a (pyGet drainage_scores (strLower s) 0.5))) := rfl

/-- Flood scoring on a numeric label raises `AttributeError`. -/
theorem flood_jnum (r a q : ℚ) :
    calculate_flood_risk r a (JVal.jnum q)
      = Except.error (PyErr.attributeError "float object has no attribute lower") := rfl

/-- Fire scoring on a string label succeeds, with this score. -/
theorem fire_jstr_skor (ar w : ℚ) (s : String) :
    Except.map RiskResult.skor_risiko (calculate_fire_risk ar (JVal.jstr s) w)
      = Except.ok (pyRound2 (fire_percentage ar (pyGet material_scores (strLower s) 0.5) w)) := rfl

/-- Fire scoring on a string label succeeds, with this category. -/
theorem fire_jstr_kategori (ar w : ℚ) (s : String) :
    Except.map RiskResult.kategori_risiko (calculate_fire_risk ar (JVal.jstr s) w)
      = Except.ok (risk_category (fire_percentage ar (pyGet material_scores (strLower s) 0.5) w)) := rfl

/-- Fire scoring on a numeric label raises `AttributeError`. -/
theorem fire_jnum (ar w q : ℚ) :
    calculate_fire_risk ar (JVal.jnum q) w
      = Except.error (PyErr.attributeError "float object has no attribute lower") := rfl

/-- Round-half-to-even moves a value by at most one half. -/
theorem roundHalfEven_bounds (y : ℚ) :
    y - 1/2 ≤ (roundHalfEven y : ℚ) ∧ (roundHalfEven y : ℚ) ≤ y + 1/2 := by
  simp only [roundHalfEven]
  have h1 : (⌊y⌋ : ℚ) ≤ y := Int.floor_le y
  have h2 : y < ⌊y⌋ + 1 := Int.lt_floor_add_one y
  split_ifs <;> constructor <;> push_cast <;> linarith

/-- `round(x, 2)` of a nonnegative value is nonnegative. -/
theorem pyRound2_nonneg (x : ℚ) (hx : 0 ≤ x) : 0 ≤ pyRound2 x := by
  unfold pyRound2
  have hb := (roundHalfEven_bounds (x * 100)).1
  have hr : (-1 : ℤ) < roundHalfEven (x * 100) := by
    have : (-1 : ℚ) < (roundHalfEven (x * 100) : ℚ) := by linarith
    exact_mod_cast this
  have : (0 : ℚ) ≤ (roundHalfEven (x * 100) : ℚ) := by exact_mod_cast hr
  linarith

/-- `round(x, 2)` of a value at most 100 is at most 100. -/
theorem pyRound2_le_100 (x : ℚ) (hx : x ≤ 100) : pyRound2 x ≤ 100 := by
  unfold pyRound2
  have hb := (roundHalfEven_bounds (x * 100)).2
  have hr : roundHalfEven (x * 100) < 10001 := by
    have : (roundHalfEven (x * 100) : ℚ) < 10001 := by linarith
    exact_mod_cast this
  have hr2 : roundHalfEven (x * 100) ≤ 10000 := by omega
  have : (roundHalfEven (x * 100) : ℚ) ≤ 10000 := by exact_mod_cast hr2
  linarith

/-- In-domain normalization lands in `[0, 1]`. -/
theorem normalize_value_mem (v mn mx : ℚ) (h : mn < mx) (h1 : mn ≤ v) (h2 : v ≤ mx) :
    0 ≤ normalize_value v mn mx ∧ normalize_value v mn mx ≤ 1 := by
  unfold normalize_value
  rw [if_neg (ne_of_gt h)]
  constructor
  · exact div_nonneg (by linarith) (by linarith)
  · rw [div_le_one (by linarith)]
    linarith

/-- Every drainage severity score lies in `[0, 1]`. -/
theorem drainage_score_mem (k : String) :
    0 ≤ pyGet drainage_scores k 0.5 ∧ pyGet drainage_scores k 0.5 ≤ 1 := by
  simp only [drainage_scores, pyGet]
  split_ifs <;> norm_num

/-- Every material severity score lies in `[0, 1]`. -/
theorem material_score_mem (k : String) :
    0 ≤ pyGet material_scores k 0.5 ∧ pyGet material_scores k 0.5 ≤ 1 := by
  simp only [material_scores, pyGet]
  split_ifs <;> norm_num

/-- The category word is exactly the 40/70 bucket of its argument. -/
theorem risk_category_iff (p : ℚ) :
    (risk_category p = "Rendah" ↔ p < 40) ∧
    (risk_category p = "Sedang" ↔ 40 ≤ p ∧ p < 70) ∧
    (risk_category p = "Tinggi" ↔ 70 ≤ p) := by
  unfold risk_category
  split_ifs with h1 h2 <;> refine ⟨?_, ?_, ?_⟩ <;> simp_all <;> linarith

/-- C4: the normalizer returns `(value - min) / (max - min)` for a
non-degenerate domain and exactly `0.5` for a degenerate one; the
endpoints map to 0 and 1, and out-of-domain values escape `[0, 1]`
(no per-factor clamping). -/
theorem C4_normalizer :
    (∀ v mn mx : ℚ, mx ≠ mn → normalize_value v mn mx = (v - mn) / (mx - mn))
  ∧ (∀ v a : ℚ, normalize_value v a a = 0.5)
  ∧ (∀ a b : ℚ, a ≠ b → normalize_value a a b = 0 ∧ normalize_value b a b = 1)
  ∧ normalize_value (-1) 0 1 < 0 ∧ 1 < normalize_value 2 0 1 := by
  refine ⟨?_, ?_, ?_, ?_, ?_⟩
  · intro v mn mx h
    unfold normalize_value
    rw [if_neg h]
  · intro v a
    unfold normalize_value
    rw [if_pos rfl]
  · intro a b h
    have hba : b ≠ a := Ne.symm h
    constructor
    · unfold normalize_value
      rw [if_neg hba]
      simp
    · unfold normalize_value
      rw [if_neg hba, div_self (sub_ne_zero.mpr hba)]
  · norm_num [normalize_value]
  · norm_num [normalize_value]

/-- C4 witness: the theorem applied at concrete inputs. -/
theorem C4_witness :
    normalize_value 3 2 7 = (3 - 2) / (7 - 2)
  ∧ normalize_value 2 2 7 = 0 ∧ normalize_value 7 2 7 = 1 :=
  ⟨C4_normalizer.1 3 2 7 (by norm_num),
   (C4_normalizer.2.2.1 2 7 (by norm_num)).1,
   (C4_normalizer.2.2.1 2 7 (by norm_num)).2⟩

/-- C5: the categorical scorer lowercases its label and looks it up in
the fixed mapping (drainage: baik 0.2, sedang 0.5, buruk 0.8; material:
sulit 0.2, sedang 0.5, mudah 0.8); any other label yields exactly 0.5,
and lookup is case-insensitive, e.g. "BAIK" scores like "baik". -/
theorem C5_categorical_scorer :
    pyGet drainage_scores (strLower "baik") 0.5 = 0.2
  ∧ pyGet drainage_scores (strLower "sedang") 0.5 = 0.5
  ∧ pyGet drainage_scores (strLower "buruk") 0.5 = 0.8
  ∧ pyGet material_scores (strLower "sulit") 0.5 = 0.2
  ∧ pyGet material_scores (strLower "sedang") 0.5 = 0.5
  ∧ pyGet material_scores (strLower "mudah") 0.5 = 0.8
  ∧ (∀ s : String, strLower s ≠ "baik" → strLower s ≠ "sedang" → strLower s ≠ "buruk" →
      pyGet drainage_scores (strLower s) 0.5 = 0.5)
  ∧ (∀ s : String, strLower s ≠ "sulit" → strLower s ≠ "sedang" → strLower s ≠ "mudah" →
      pyGet material_scores (strLower s) 0.5 = 0.5)
  ∧ (∀ s t : String, strLower s = strLower t →
      pyGet drainage_scores (strLower s) 0.5 = pyGet drainage_scores (strLower t) 0.5)
  ∧ pyGet drainage_scores (strLower "BAIK") 0.5 = pyGet drainage_scores (strLower "baik") 0.5 := by
  refine ⟨rfl, rfl, rfl, rfl, rfl, rfl, ?_, ?_, ?_, rfl⟩
  · intro s h1 h2 h3
    simp [drainage_scores, pyGet, h1, h2, h3]
  · intro s h1 h2 h3
    simp [material_scores, pyGet, h1, h2, h3]
  · intro s t h
    rw [h]

/-- C5 witness: the theorem applied at concrete inputs. -/
theorem C5_witness :
    pyGet drainage_scores (strLower "Jelek") 0.5 = 0.5
  ∧ pyGet material_scores (strLower "batu") 0.5 = 0.5
  ∧ pyGet drainage_scores (strLower "BuRuK") 0.5 = pyGet drainage_scores (strLower "buruk") 0.5 :=
  ⟨C5_categorical_scorer.2.2.2.2.2.2.1 "Jelek" (by decide) (by decide) (by decide),
   C5_categorical_scorer.2.2.2.2.2.2.2.1 "batu" (by decide) (by decide) (by decide),
   C5_categorical_scorer.2.2.2.2.2.2.2.2.1 "BuRuK" "buruk" (by decide)⟩

/-- The clamped percentage never exceeds 100 (seismic). -/
theorem earthquake_percentage_le_100 (m d t : ℚ) : earthquake_percentage m d t ≤ 100 :=
  min_le_right _ _

/-- The clamped percentage never exceeds 100 (flood). -/
theorem flood_percentage_le_100 (r a ds : ℚ) : flood_percentage r a ds ≤ 100 :=
  min_le_right _ _

/-- The clamped percentage never exceeds 100 (fire). -/
theorem fire_percentage_le_100 (ar ms w : ℚ) : fire_percentage ar ms w ≤ 100 :=
  min_le_right _ _

/-- In-domain seismic inputs give a nonnegative percentage. -/
theorem earthquake_percentage_nonneg (m d t : ℚ)
    (h1 : 1 ≤ m) (h2 : m ≤ 10) (h3 : 0 ≤ d) (h4 : d ≤ 700)
    (h5 : 0 ≤ t) (h6 : t ≤ 1000) : 0 ≤ earthquake_percentage m d t := by
  have hm := normalize_value_mem m 1 10 (by norm_num) h1 h2
  have hd := normalize_value_mem d 0 700 (by norm_num) h3 h4
  have ht := normalize_value_mem t 0 1000 (by norm_num) h5 h6
  unfold earthquake_percentage
  refine le_min ?_ (by norm_num)
  nlinarith [hm.1, hm.2, hd.1, hd.2, ht.1, ht.2]

/-- In-domain flood inputs with a severity score in `[0,1]` give a
nonnegative percentage. -/
theorem flood_percentage_nonneg (r a ds : ℚ)
    (h1 : 0 ≤ r) (h2 : r ≤ 500) (h3 : 0 ≤ a) (h4 : a ≤ 3000)
    (h5 : 0 ≤ ds) (h6 : ds ≤ 1) : 0 ≤ flood_percentage r a ds := by
  have hr := normalize_value_mem r 0 500 (by norm_num) h1 h2
  have ha := normalize_value_mem a 0 3000 (by norm_num) h3 h4
  unfold flood_percentage
  refine le_min ?_ (by norm_num)
  nlinarith [hr.1, hr.2, ha.1, ha.2]

/-- In-domain fire inputs with a severity score in `[0,1]` give a
nonnegative percentage. -/
theorem fire_percentage_nonneg (ar ms w : ℚ)
    (h1 : 0 ≤ ar) (h2 : ar ≤ 10000) (h3 : 0 ≤ ms) (h4 : ms ≤ 1)
    (h5 : 0 ≤ w) (h6 : w ≤ 100) : 0 ≤ fire_percentage ar ms w := by
  have ha := normalize_value_mem ar 0 10000 (by norm_num) h1 h2
  have hw := normalize_value_mem w 0 100 (by norm_num) h5 h6
  unfold fire_percentage
  refine le_min ?_ (by norm_num)
  nlinarith [ha.1, ha.2, hw.1, hw.2]

/-- C1 (amended): for every scenario the returned score is at most 100
and the category is the 40/70 bucket of the unrounded clamped
percentage; the score is additionally nonnegative whenever the inputs
lie in their nominal domains.  (As stated the claim is false: without a
lower clamp an out-of-domain input drives the score below 0, and the
category is bucketed before rounding, so the returned rounded score can
sit on the wrong side of a threshold — see the counterexample.) -/
theorem C1_amended_range_and_category :
    (∀ p : ℚ, (risk_category p = "Rendah" ↔ p < 40) ∧
      (risk_category p = "Sedang" ↔ 40 ≤ p ∧ p < 70) ∧
      (risk_category p = "Tinggi" ↔ 70 ≤ p))
  ∧ (∀ m d t : ℚ,
      (calculate_earthquake_risk m d t).skor_risiko ≤ 100 ∧
      (calculate_earthquake_risk m d t).kategori_risiko
        = risk_category (earthquake_percentage m d t))
  ∧ (∀ m d t : ℚ, 1 ≤ m → m ≤ 10 → 0 ≤ d → d ≤ 700 → 0 ≤ t → t ≤ 1000 →
      0 ≤ (calculate_earthquake_risk m d t).skor_risiko)
  ∧ (∀ r a : ℚ, ∀ dc : JVal, ∀ R : RiskResult,
      calculate_flood_risk r a dc = Except.ok R →
      R.skor_risiko ≤ 100 ∧
      ∃ s : String, dc = JVal.jstr s ∧
        R.kategori_risiko
          = risk_category (flood_percentage r a (pyGet drainage_scores (strLower s) 0.5)))
  ∧ (∀ r a : ℚ, ∀ s : String, ∀ R : RiskResult,
      calculate_flood_risk r a (JVal.jstr s) = Except.ok R →
      0 ≤ r → r ≤ 500 → 0 ≤ a → a ≤ 3000 → 0 ≤ R.skor_risiko)
  ∧ (∀ ar w : ℚ, ∀ mt : JVal, ∀ R : RiskResult,
      calculate_fire_risk ar mt w = Except.ok R →
      R.skor_risiko ≤ 100 ∧
      ∃ s : String, mt = JVal.jstr s ∧
        R.kategori_risiko
          = risk_category (fire_percentage ar (pyGet material_scores (strLower s) 0.5) w))
  ∧ (∀ ar w : ℚ, ∀ s : String, ∀ R : RiskResult,
      calculate_fire_risk ar (JVal.jstr s) w = Except.ok R →
      0 ≤ ar → ar ≤ 10000 → 0 ≤ w → w ≤ 100 → 0 ≤ R.skor_risiko) := by
  refine ⟨risk_category_iff, ?_, ?_, ?_, ?_, ?_, ?_⟩
  · intro m d t
    refine ⟨?_, earthquake_kategori_eq m d t⟩
    rw [earthquake_skor_eq]
    exact pyRound2_le_100 _ (earthquake_percentage_le_100 m d t)
  · intro m d t h1 h2 h3 h4 h5 h6
    rw [earthquake_skor_eq]
    exact pyRound2_nonneg _ (earthquake_percentage_nonneg m d t h1 h2 h3 h4 h5 h6)
  · intro r a dc R hOk
    cases dc with
    | jnum q => rw [flood_jnum] at hOk; cases hOk
    | jstr s =>
      have hs := flood_jstr_skor r a s
      rw [hOk] at hs
      simp only [Except.map, Except.ok.injEq] at hs
      have hk := flood_jstr_kategori r a s
      rw [hOk] at hk
      simp only [Except.map, Except.ok.injEq] at hk
      exact ⟨by rw [hs]; exact pyRound2_le_100 _ (flood_percentage_le_100 r a _), s, rfl, hk⟩
  · intro r a s R hOk h1 h2 h3 h4
    have hs := flood_jstr_skor r a s
    rw [hOk] at hs
    simp only [Except.map, Except.ok.injEq] at hs
    rw [hs]
    have hds := drainage_score_mem (strLower s)
    exact pyRound2_nonneg _ (flood_percentage_nonneg r a _ h1 h2 h3 h4 hds.1 hds.2)
  · intro ar w mt R hOk
    cases mt with
    | jnum q => rw [fire_jnum] at hOk; cases hOk
    | jstr s =>
      have hs := fire_jstr_skor ar w s
      rw [hOk] at hs
      simp only [Except.map, Except.ok.injEq] at hs
      have hk := fire_jstr_kategori ar w s
      rw [hOk] at hk
      simp only [Except.map, Except.ok.injEq] at hk
      exact ⟨by rw [hs]; exact pyRound2_le_100 _ (fire_percentage_le_100 ar _ w), s, rfl, hk⟩
  · intro ar w s R hOk h1 h2 h3 h4
    have hs := fire_jstr_skor ar w s
    rw [hOk] at hs
    simp only [Except.map, Except.ok.injEq] at hs
    rw [hs]
    have hms := material_score_mem (strLower s)
    exact pyRound2_nonneg _ (fire_percentage_nonneg ar _ w h1 h2 hms.1 hms.2 h3 h4)

/-- C1 counterexample: the claim as stated fails twice on the seismic
model.  With out-of-domain inputs (magnitude 1, depth 7000, distance
10000) the returned score is -450, far below 0; and with the in-domain
input magnitude 8.19928, depth 700, distance 1000 the unrounded
percentage 39.996 is categorised "Rendah" but rounds to a returned
score of exactly 40, which the claim says must be "Sedang". -/
theorem C1_counterexample :
    (calculate_earthquake_risk 1 7000 10000).skor_risiko < 0
  ∧ (calculate_earthquake_risk (819928/100000) 700 1000).skor_risiko = 40
  ∧ (calculate_earthquake_risk (819928/100000) 700 1000).kategori_risiko = "Rendah" := by
  refine ⟨?_, ?_, ?_⟩
  · rw [earthquake_skor_eq]
    have h : earthquake_percentage 1 7000 10000 = -450 := by
      norm_num [earthquake_percentage, normalize_value, min_def]
    rw [h]
    norm_num [pyRound2, roundHalfEven]
  · rw [earthquake_skor_eq]
    have h : earthquake_percentage (819928/100000) 700 1000 = 39996/1000 := by
      norm_num [earthquake_percentage, normalize_value, min_def]
    rw [h]
    norm_num [pyRound2, roundHalfEven]
  · rw [earthquake_kategori_eq]
    have h : earthquake_percentage (819928/100000) 700 1000 = 39996/1000 := by
      norm_num [earthquake_percentage, normalize_value, min_def]
    rw [h]
    norm_num [risk_category]

/-- C1 witness: the amended theorem applied at an in-domain seismic
input. -/
theorem C1_witness :
    0 ≤ (calculate_earthquake_risk 5 100 50).skor_risiko
  ∧ (calculate_earthquake_risk 5 100 50).skor_risiko ≤ 100 :=
  ⟨C1_amended_range_and_category.2.2.1 5 100 50 (by norm_num) (by norm_num)
    (by norm_num) (by norm_num) (by norm_num) (by norm_num),
   (C1_amended_range_and_category.2.1 5 100 50).1⟩

/-- C2 counterexample: the seismic model at magnitude 7.5, depth 50,
distance 20 does not return 83.56.  The exact percentage is
26324/315 = 83.5682..., which rounds to 83.57, not 83.56 (the spec
rounded each intermediate term before summing). -/
theorem C2_counterexample :
    (calculate_earthquake_risk 7.5 50 20).skor_risiko ≠ 83.56 := by
  rw [earthquake_skor_eq]
  have h : earthquake_percentage 7.5 50 20 = 26324/315 := by
    norm_num [earthquake_percentage, normalize_value, min_def]
  rw [h]
  norm_num [pyRound2, roundHalfEven]

/-- C2 (amended): the seismic model at magnitude 7.5, depth 50,
distance 20 returns a score of 83.57 with category "Tinggi". -/
theorem C2_amended_seismic_example :
    (calculate_earthquake_risk 7.5 50 20).skor_risiko = 83.57
  ∧ (calculate_earthquake_risk 7.5 50 20).kategori_risiko = "Tinggi" := by
  constructor
  · rw [earthquake_skor_eq]
    have h : earthquake_percentage 7.5 50 20 = 26324/315 := by
      norm_num [earthquake_percentage, normalize_value, min_def]
    rw [h]
    norm_num [pyRound2, roundHalfEven]
  · rw [earthquake_kategori_eq]
    have h : earthquake_percentage 7.5 50 20 = 26324/315 := by
      norm_num [earthquake_percentage, normalize_value, min_def]
    rw [h]
    norm_num [risk_category]

/-- C8: the fire model at area 5000, material "mudah", wind speed 80
returns a score of 68 with category "Sedang". -/
theorem C8_fire_example :
    Except.map RiskResult.skor_risiko (calculate_fire_risk 5000 (JVal.jstr "mudah") 80)
      = Except.ok 68
  ∧ Except.map RiskResult.kategori_risiko (calculate_fire_risk 5000 (JVal.jstr "mudah") 80)
      = Except.ok "Sedang" := by
  have hget : pyGet material_scores (strLower "mudah") 0.5 = 0.8 := rfl
  have hp : fire_percentage 5000 (pyGet material_scores (strLower "mudah") 0.5) 80 = 68 := by
    rw [hget]
    norm_num [fire_percentage, normalize_value, min_def]
  constructor
  · rw [fire_jstr_skor, hp]
    norm_num [pyRound2, roundHalfEven]
  · rw [fire_jstr_kategori, hp]
    norm_num [risk_category]

/-- `float()` of a JSON number is that number. -/
theorem pyFloat_jnum (q : ℚ) : pyFloat (JVal.jnum q) = Except.ok q := rfl

/-- A key absent from the dictionary makes `dict.get` return the
default. -/
theorem pyGet_eq_default {α : Type} (m : List (String × α)) (k : String) (d : α)
    (h : pyHasKey m k = false) : pyGet m k d = d := by
  induction m with
  | nil => rfl
  | cons p rest ih =>
    obtain ⟨k', v⟩ := p
    by_cases hkk : k = k'
    · simp [pyHasKey, hkk] at h
    · simp only [pyGet, if_neg hkk]
      exact ih (by simpa [pyHasKey, hkk] using h)

/-- If any key of the `INSERT` tuple is missing from the request body,
`save_simulation_result` performs no insert. -/
theorem save_no_insert_of_missing (c w : Bool) (dt : String)
    (ps : List (String × JVal)) (k : String) (hk : k ∈ requiredKeys dt)
    (hmiss : pyHasKey ps k = false) :
    ∀ t, StoreOp.insertRow t ∉ (save_simulation_result c w dt ps).snd := by
  have hall : (requiredKeys dt).all (fun k => pyHasKey ps k) = false := by
    rw [List.all_eq_false]
    exact ⟨k, hk, by simp [hmiss]⟩
  unfold save_simulation_result
  split_ifs <;> simp_all

/-- C3 counterexample: the history endpoint does touch the store on an
unknown scenario type.  It opens the connection before validating the
type, so with an unreachable store the response to an unknown type is
the 500 "Database connection failed" envelope, not a client error; and
with a reachable store the effect trace is nonempty. -/
theorem C3_counterexample :
    (get_history false (fun _ => []) "tsunami").fst
      = HistResponse.serverError "Database connection failed"
  ∧ (get_history true (fun _ => []) "tsunami").snd ≠ [] := by
  refine ⟨rfl, ?_⟩
  simp [get_history]

/-- C3 (amended): an unknown scenario type on the calculate endpoint
returns the 400 envelope with no store access and no scoring.  On the
history endpoint the type is checked only after connecting: with a
reachable store the response is the 400 envelope and the only store
operation is the connection (no query); with an unreachable store the
response is instead the 500 connection-failure envelope. -/
theorem C3_amended_unknown_type (dt : String) (data : List (String × JVal))
    (connOk writeOk : Bool) (stores : String → List Row)
    (h1 : dt ≠ "gempa") (h2 : dt ≠ "banjir") (h3 : dt ≠ "kebakaran") :
    calculate_risk dt data connOk writeOk
      = (CalcResponse.clientError "Jenis bencana tidak valid", [])
  ∧ (get_history true stores dt).fst = HistResponse.clientError "Jenis bencana tidak valid"
  ∧ (get_history true stores dt).snd = [StoreOp.connect]
  ∧ (get_history false stores dt).fst
      = HistResponse.serverError "Database connection failed" := by
  refine ⟨?_, ?_, ?_, rfl⟩
  · simp [calculate_risk, compute_result, h1, h2, h3]
  · simp [get_history, h1, h2, h3]
  · simp [get_history, h1, h2, h3]

/-- C3 witness: the amended theorem applied at a concrete unknown type. -/
theorem C3_witness :
    calculate_risk "tsunami" [] true true
      = (CalcResponse.clientError "Jenis bencana tidak valid", []) :=
  (C3_amended_unknown_type "tsunami" [] true true (fun _ => [])
    (by decide) (by decide) (by decide)).1

/-- C6: a persistence failure is never propagated.  If a request
succeeds with a working store, the same request gives the same
successful response whatever the store does (connection refused,
write rejected): the response ignores `save_simulation_result`. -/
theorem C6_persistence_never_propagated (dt : String) (data : List (String × JVal))
    (connOk writeOk : Bool) (R : RiskResult)
    (h : (calculate_risk dt data true true).fst = CalcResponse.success R) :
    (calculate_risk dt data connOk writeOk).fst = CalcResponse.success R := by
  cases hc : compute_result dt data with
  | none => simp [calculate_risk, hc] at h
  | some res =>
    cases res with
    | error e => simp [calculate_risk, hc] at h
    | ok r =>
      simp [calculate_risk, hc] at h ⊢
      exact h

/-- C6 witness: the theorem applied with both store failures at once. -/
theorem C6_witness :
    (calculate_risk "gempa" [] false false).fst
      = CalcResponse.success (calculate_earthquake_risk 5.0 10.0 50.0) :=
  C6_persistence_never_propagated "gempa" [] false false _ rfl

/-- If any key of the `INSERT` tuple is missing from the request body,
the calculate endpoint performs no insert, on any path. -/
theorem calculate_risk_no_insert_of_missing (dt : String)
    (data : List (String × JVal)) (c w : Bool) (k : String)
    (hk : k ∈ requiredKeys dt) (hmiss : pyHasKey data k = false) :
    ∀ t, StoreOp.insertRow t ∉ (calculate_risk dt data c w).snd := by
  intro tb
  cases hc : compute_result dt data with
  | none => simp [calculate_risk, hc]
  | some res =>
    cases res with
    | error e => simp [calculate_risk, hc]
    | ok r =>
      simp only [calculate_risk, hc]
      exact save_no_insert_of_missing c w dt data k hk hmiss tb

/-- C7: a body missing any of the parameters named in the `INSERT`
never persists a row (the `KeyError` in `save_simulation_result` is
swallowed), and — for each of the three scenarios, whichever of its
fields are missing — the response is still the success envelope, with
every missing field taking its documented default. -/
theorem C7_missing_field_not_persisted :
    (∀ dt : String, ∀ data : List (String × JVal), ∀ c w : Bool, ∀ k : String,
      k ∈ requiredKeys dt → pyHasKey data k = false →
      ∀ t, StoreOp.insertRow t ∉ (calculate_risk dt data c w).snd)
  ∧ (∀ data : List (String × JVal), ∀ c w : Bool, ∀ m d t : ℚ,
      (∃ k ∈ requiredKeys "gempa", pyHasKey data k = false) →
      pyFloat (pyGet data "magnitude" (JVal.jnum 5.0)) = Except.ok m →
      pyFloat (pyGet data "depth" (JVal.jnum 10.0)) = Except.ok d →
      pyFloat (pyGet data "distance" (JVal.jnum 50.0)) = Except.ok t →
      (calculate_risk "gempa" data c w).fst
        = CalcResponse.success (calculate_earthquake_risk m d t)
      ∧ (pyHasKey data "magnitude" = false → m = 5.0)
      ∧ (pyHasKey data "depth" = false → d = 10.0)
      ∧ (pyHasKey data "distance" = false → t = 50.0)
      ∧ ∀ tb, StoreOp.insertRow tb ∉ (calculate_risk "gempa" data c w).snd)
  ∧ (∀ data : List (String × JVal), ∀ c w : Bool, ∀ r a : ℚ, ∀ R : RiskResult,
      (∃ k ∈ requiredKeys "banjir", pyHasKey data k = false) →
      pyFloat (pyGet data "rainfall" (JVal.jnum 50.0)) = Except.ok r →
      pyFloat (pyGet data "altitude" (JVal.jnum 50.0)) = Except.ok a →
      calculate_flood_risk r a (pyGet data "drainageCondition" (JVal.jstr "sedang"))
        = Except.ok R →
      (calculate_risk "banjir" data c w).fst = CalcResponse.success R
      ∧ (pyHasKey data "rainfall" = false → r = 50.0)
      ∧ (pyHasKey data "altitude" = false → a = 50.0)
      ∧ (pyHasKey data "drainageCondition" = false →
          pyGet data "drainageCondition" (JVal.jstr "sedang") = JVal.jstr "sedang")
      ∧ ∀ tb, StoreOp.insertRow tb ∉ (calculate_risk "banjir" data c w).snd)
  ∧ (∀ data : List (String × JVal), ∀ c w : Bool, ∀ ar ws : ℚ, ∀ R : RiskResult,
      (∃ k ∈ requiredKeys "kebakaran", pyHasKey data k = false) →
      pyFloat (pyGet data "area" (JVal.jnum 100.0)) = Except.ok ar →
      pyFloat (pyGet data "windSpeed" (JVal.jnum 10.0)) = Except.ok ws →
      calculate_fire_risk ar (pyGet data "materialType" (JVal.jstr "sedang")) ws
        = Except.ok R →
      (calculate_risk "kebakaran" data c w).fst = CalcResponse.success R
      ∧ (pyHasKey data "area" = false → ar = 100.0)
      ∧ (pyHasKey data "materialType" = false →
          pyGet data "materialType" (JVal.jstr "sedang") = JVal.jstr "sedang")
      ∧ (pyHasKey data "windSpeed" = false → ws = 10.0)
      ∧ ∀ tb, StoreOp.insertRow tb ∉ (calculate_risk "kebakaran" data c w).snd) := by
  refine ⟨?_, ?_, ?_, ?_⟩
  · intro dt data c w k hk hmiss
    exact calculate_risk_no_insert_of_missing dt data c w k hk hmiss
  · intro data c w m d t hmiss hm hd ht
    obtain ⟨k, hk, hkmiss⟩ := hmiss
    refine ⟨?_, ?_, ?_, ?_, ?_⟩
    · simp [calculate_risk, compute_result, hm, hd, ht]
    · intro h'
      rw [pyGet_eq_default _ _ _ h', pyFloat_jnum] at hm
      exact (Except.ok.injEq _ _).mp hm |>.symm
    · intro h'
      rw [pyGet_eq_default _ _ _ h', pyFloat_jnum] at hd
      exact (Except.ok.injEq _ _).mp hd |>.symm
    · intro h'
      rw [pyGet_eq_default _ _ _ h', pyFloat_jnum] at ht
      exact (Except.ok.injEq _ _).mp ht |>.symm
    · exact calculate_risk_no_insert_of_missing "gempa" data c w k hk hkmiss
  · intro data c w r a R hmiss hr ha hR
    obtain ⟨k, hk, hkmiss⟩ := hmiss
    refine ⟨?_, ?_, ?_, ?_, ?_⟩
    · simp [calculate_risk, compute_result, hr, ha, hR]
    · intro h'
      rw [pyGet_eq_default _ _ _ h', pyFloat_jnum] at hr
      exact (Except.ok.injEq _ _).mp hr |>.symm
    · intro h'
      rw [pyGet_eq_default _ _ _ h', pyFloat_jnum] at ha
      exact (Except.ok.injEq _ _).mp ha |>.symm
    · intro h'
      exact pyGet_eq_default _ _ _ h'
    · exact calculate_risk_no_insert_of_missing "banjir" data c w k hk hkmiss
  · intro data c w ar ws R hmiss har hws hR
    obtain ⟨k, hk, hkmiss⟩ := hmiss
    refine ⟨?_, ?_, ?_, ?_, ?_⟩
    · simp [calculate_risk, compute_result, har, hws, hR]
    · intro h'
      rw [pyGet_eq_default _ _ _ h', pyFloat_jnum] at har
      exact (Except.ok.injEq _ _).mp har |>.symm
    · intro h'
      exact pyGet_eq_default _ _ _ h'
    · intro h'
      rw [pyGet_eq_default _ _ _ h', pyFloat_jnum] at hws
      exact (Except.ok.injEq _ _).mp hws |>.symm
    · exact calculate_risk_no_insert_of_missing "kebakaran" data c w k hk hkmiss

/-- C7 witness: a seismic request missing its magnitude still succeeds
(with the default magnitude) and inserts nothing. -/
theorem C7_witness :
    (calculate_risk "gempa" [("depth", JVal.jnum 30)] true true).fst
      = CalcResponse.success (calculate_earthquake_risk 5.0 30 50.0)
  ∧ StoreOp.insertRow "simulasi_gempa"
      ∉ (calculate_risk "gempa" [("depth", JVal.jnum 30)] true true).snd :=
  ⟨(C7_missing_field_not_persisted.2.1 [("depth", JVal.jnum 30)] true true 5.0 30 50.0
      ⟨"magnitude", by simp [requiredKeys], rfl⟩ rfl rfl rfl).1,
   C7_missing_field_not_persisted.1 "gempa" [("depth", JVal.jnum 30)] true true
     "magnitude" (by simp [requiredKeys]) rfl "simulasi_gempa"⟩

/-- C9: each missing body field falls back to its documented default
before scoring: the getter returns the default for an absent key, and a
request with an empty body is scored at exactly the documented default
parameters of its scenario (seismic 5.0/10.0/50.0, flood
50.0/50.0/"sedang", fire 100.0/"sedang"/10.0). -/
theorem C9_documented_defaults :
    (∀ (data : List (String × JVal)) (k : String) (dflt : JVal),
      pyHasKey data k = false → pyGet data k dflt = dflt)
  ∧ (∀ (data : List (String × JVal)) (c w : Bool),
      pyHasKey data "magnitude" = false → pyHasKey data "depth" = false →
      pyHasKey data "distance" = false →
      (calculate_risk "gempa" data c w).fst
        = CalcResponse.success (calculate_earthquake_risk 5.0 10.0 50.0))
  ∧ (∀ (data : List (String × JVal)) (c w : Bool),
      pyHasKey data "rainfall" = false → pyHasKey data "altitude" = false →
      pyHasKey data "drainageCondition" = false →
      ∀ R : RiskResult, calculate_flood_risk 50.0 50.0 (JVal.jstr "sedang") = Except.ok R →
      (calculate_risk "banjir" data c w).fst = CalcResponse.success R)
  ∧ (∀ (data : List (String × JVal)) (c w : Bool),
      pyHasKey data "area" = false → pyHasKey data "materialType" = false →
      pyHasKey data "windSpeed" = false →
      ∀ R : RiskResult, calculate_fire_risk 100.0 (JVal.jstr "sedang") 10.0 = Except.ok R →
      (calculate_risk "kebakaran" data c w).fst = CalcResponse.success R) := by
  refine ⟨fun data k dflt h => pyGet_eq_default _ _ _ h, ?_, ?_, ?_⟩
  · intro data c w h1 h2 h3
    have e1 := pyGet_eq_default data "magnitude" (JVal.jnum 5.0) h1
    have e2 := pyGet_eq_default data "depth" (JVal.jnum 10.0) h2
    have e3 := pyGet_eq_default data "distance" (JVal.jnum 50.0) h3
    simp [calculate_risk, compute_result, e1, e2, e3, pyFloat]
  · intro data c w h1 h2 h3 R hR
    have e1 := pyGet_eq_default data "rainfall" (JVal.jnum 50.0) h1
    have e2 := pyGet_eq_default data "altitude" (JVal.jnum 50.0) h2
    have e3 := pyGet_eq_default data "drainageCondition" (JVal.jstr "sedang") h3
    simp [calculate_risk, compute_result, e1, e2, e3, pyFloat, hR]
  · intro data c w h1 h2 h3 R hR
    have e1 := pyGet_eq_default data "area" (JVal.jnum 100.0) h1
    have e2 := pyGet_eq_default data "materialType" (JVal.jstr "sedang") h2
    have e3 := pyGet_eq_default data "windSpeed" (JVal.jnum 10.0) h3
    simp [calculate_risk, compute_result, e1, e2, e3, pyFloat, hR]

/-- C9 witness: the theorem applied at an empty body. -/
theorem C9_witness :
    pyGet [("x", JVal.jnum 1)] "magnitude" (JVal.jnum 5.0) = JVal.jnum 5.0
  ∧ (calculate_risk "gempa" [] true true).fst
      = CalcResponse.success (calculate_earthquake_risk 5.0 10.0 50.0) :=
  ⟨C9_documented_defaults.1 [("x", JVal.jnum 1)] "magnitude" (JVal.jnum 5.0) rfl,
   C9_documented_defaults.2.1 [] true true rfl rfl rfl⟩

/-- C10: a flood or fire request whose categorical field is present but
numeric is answered with the 500 envelope, not scored with the 0.5
default: `.lower()` on the number raises `AttributeError`, which is
caught only at the request boundary. -/
theorem C10_nonstring_label_is_server_error :
    (∀ (data : List (String × JVal)) (c w : Bool) (q r a : ℚ),
      pyGet data "drainageCondition" (JVal.jstr "sedang") = JVal.jnum q →
      pyFloat (pyGet data "rainfall" (JVal.jnum 50.0)) = Except.ok r →
      pyFloat (pyGet data "altitude" (JVal.jnum 50.0)) = Except.ok a →
      (calculate_risk "banjir" data c w).fst
        = CalcResponse.serverError "Error: float object has no attribute lower")
  ∧ (∀ (data : List (String × JVal)) (c w : Bool) (q ar ws : ℚ),
      pyGet data "materialType" (JVal.jstr "sedang") = JVal.jnum q →
      pyFloat (pyGet data "area" (JVal.jnum 100.0)) = Except.ok ar →
      pyFloat (pyGet data "windSpeed" (JVal.jnum 10.0)) = Except.ok ws →
      (calculate_risk "kebakaran" data c w).fst
        = CalcResponse.serverError "Error: float object has no attribute lower") := by
  constructor
  · intro data c w q r a hdc hr ha
    simp [calculate_risk, compute_result, hdc, hr, ha, flood_jnum, PyErr.msg]
  · intro data c w q ar ws hmt har hws
    simp [calculate_risk, compute_result, hmt, har, hws, fire_jnum, PyErr.msg]

/-- C10 witness: the theorem applied at a body carrying a numeric
drainage condition. -/
theorem C10_witness :
    (calculate_risk "banjir" [("drainageCondition", JVal.jnum 3)] true true).fst
      = CalcResponse.serverError "Error: float object has no attribute lower" :=
  C10_nonstring_label_is_server_error.1 [("drainageCondition", JVal.jnum 3)]
    true true 3 50.0 50.0 rfl rfl rfl
